import Mathlib

/-!
Shallow embedding of `src/sidecars/fast_asr/server.py`: a streaming ASR
session coordinator.  The module state consists of a global mutual-exclusion
lock (`threading.Lock`) and a session registry (`sessions : dict`), and the
handlers `start_session`, `push_audio`, `end_session` plus the result
adapter `_extract_text`.  The recognition engine (`sherpa_onnx`) is an
external collaborator; it is embedded as an abstract interface (`Engine`)
whose operations may fail (a Python exception becomes `Except.error`) and
which carries a decreasing measure witnessing that each decode step consumes
buffered audio, so the drain loop `while recognizer.is_ready(stream): ...`
can be expressed by well-founded recursion.
-/

deriving instance DecidableEq for Except

namespace FastASR

/-- Engine result representation: `_extract_text` distinguishes a bare Python
string from an object carrying a `text` attribute.  `obj none` stands for an
object whose `text` attribute is missing or `None` (in Python,
`getattr(result, "text", "")` then yields `""` or `None`). -/
inductive EngineResult where
  | str (s : String)
  | obj (text : Option String)
  deriving DecidableEq

/-- Embedding of `_extract_text` (server.py lines 70-73):
`isinstance(result, str)` returns it unchanged; otherwise
`getattr(result, "text", "") or ""`. -/
def extract_text : EngineResult → String
  | EngineResult.str s => s
  | EngineResult.obj none => ""
  | EngineResult.obj (some t) => if t = "" then "" else t

/-- Value of one base64 alphabet character, `none` for a non-alphabet
character (which `base64.b64decode` with `validate=False` skips). -/
def b64CharVal (c : Char) : Option Nat :=
  if 'A' ≤ c ∧ c ≤ 'Z' then some (c.toNat - 65)
  else if 'a' ≤ c ∧ c ≤ 'z' then some (c.toNat - 71)
  else if '0' ≤ c ∧ c ≤ '9' then some (c.toNat + 4)
  else if c = '+' then some 62
  else if c = '/' then some 63
  else none

/-- Main loop of the base64 decoder, embedding CPython's
`binascii.a2b_base64` in non-strict mode (what `base64.b64decode` calls):
`quadPos` counts the data characters of the current quad (0-3), `leftchar`
holds their leftover bits, `pads` counts pad characters seen since the
last data character.  Non-alphabet characters are skipped; each byte is
emitted as soon as its six-bit pieces are complete; a `=` when the current
quad has at least two data characters and `quadPos + pads` reaches 4 ends
the input successfully (any remaining characters are not read); a `=`
before two data characters is skipped; input ending mid-quad raises
`binascii.Error` — one data character over a multiple of 4 gets the
"cannot be 1 more" message, two or three get "incorrect padding". -/
def b64Loop : List Char → Nat → Nat → Nat → Except String (List Nat)
  | [], quadPos, _, _ =>
    if quadPos = 0 then Except.ok []
    else if quadPos = 1 then Except.error "invalid base64-encoded string"
    else Except.error "incorrect padding"
  | c :: rest, quadPos, leftchar, pads =>
    if c = '=' then
      if 2 ≤ quadPos then
        if 4 ≤ quadPos + (pads + 1) then Except.ok []
        else b64Loop rest quadPos leftchar (pads + 1)
      else b64Loop rest quadPos leftchar pads
    else
      match b64CharVal c with
      | none => b64Loop rest quadPos leftchar pads
      | some v =>
        match quadPos with
        | 0 => b64Loop rest 1 v 0
        | 1 =>
          match b64Loop rest 2 (v % 16) 0 with
          | Except.error e => Except.error e
          | Except.ok bs => Except.ok ((leftchar * 4 + v / 16) :: bs)
        | 2 =>
          match b64Loop rest 3 (v % 4) 0 with
          | Except.error e => Except.error e
          | Except.ok bs => Except.ok ((leftchar * 16 + v / 4) :: bs)
        | _ =>
          match b64Loop rest 0 0 0 with
          | Except.error e => Except.error e
          | Except.ok bs => Except.ok ((leftchar * 64 + v) :: bs)

/-- Embedding of `base64.b64decode` (server.py line 94): the decoded bytes,
or an error for undecodable input (Python raises, caught at line 95 and
mapped to HTTP 400). -/
def b64decode (s : String) : Except String (List Nat) :=
  if s.toList.all (fun c => c.toNat < 128) then b64Loop s.toList 0 0 0
  else Except.error "string argument should contain only ASCII characters"

/-- Group little-endian byte quadruples into 32-bit sample bit patterns. -/
def toLE32 : List Nat → List Nat
  | b0 :: b1 :: b2 :: b3 :: rest => (b0 + 256 * (b1 + 256 * (b2 + 256 * b3))) :: toLE32 rest
  | _ => []

/-- Embedding of `np.frombuffer(data, dtype=np.float32)` (server.py
line 101): reinterprets the byte buffer as little-endian 32-bit samples
(each kept as its bit pattern), raising `ValueError` when the byte length is
not a multiple of the element size.  NB: in the source this call is NOT
inside the `try` of lines 93-96, so the error is an unhandled exception,
not an HTTP 400. -/
def npFrombufferFloat32 (data : List Nat) : Except String (List Nat) :=
  if data.length % 4 = 0 then Except.ok (toLE32 data)
  else Except.error "buffer size must be a multiple of element size"

/-- Embedding of `int(q)`: truncation toward zero, applied by the source to
`(time.time() - started) * 1000`. -/
def pyInt (q : ℚ) : Int := Int.tdiv q.num (q.den : Int)

/-- Abstract interface of the sherpa-onnx recognizer plus per-session
stream, as consumed by the server (server.py lines 79, 107-110, 122-125).
Operations may raise (model `Except.error`).  `backlog` is the abstract
amount of buffered-but-undecoded audio; `decode_lt` states the engine's
progress guarantee: a successful decode step on a ready stream consumes
buffered audio, which is what terminates the server's drain loop. -/
structure Engine (σ : Type) where
  createStream : σ
  isReady : σ → Bool
  decodeStream : σ → Except String σ
  getResult : σ → Except String EngineResult
  acceptWaveform : Nat → List Nat → σ → Except String σ
  inputFinished : σ → Except String σ
  backlog : σ → Nat
  decode_lt : ∀ s s', isReady s = true → decodeStream s = Except.ok s' → backlog s' < backlog s

/-- Embedding of the drain loop `while recognizer.is_ready(stream):
recognizer.decode_stream(stream)` (server.py lines 108-109 and 123-124).
Returns the drained stream (or the propagated engine exception) together
with the number of decode steps performed. -/
def drain {σ : Type} (E : Engine σ) (s : σ) : Except String σ × Nat :=
  if h : E.isReady s = true then
    match hd : E.decodeStream s with
    | Except.error e => (Except.error e, 1)
    | Except.ok s' =>
      match drain E s' with
      | (r, n) => (r, n + 1)
  else (Except.ok s, 0)
termination_by E.backlog s
decreasing_by exact E.decode_lt s s' h hd

/-- The body of the `with lock:` block of `push_audio` (server.py lines
107-110): feed the chunk, drain, read the result.  The second component
counts engine invocations (including a failing one). -/
def pushLocked {σ : Type} (E : Engine σ) (stream : σ) (rate : Nat) (samples : List Nat) :
    Except String (σ × EngineResult) × Nat :=
  match E.acceptWaveform rate samples stream with
  | Except.error e => (Except.error e, 1)
  | Except.ok s1 =>
    match drain E s1 with
    | (Except.error e, n) => (Except.error e, n + 1)
    | (Except.ok s2, n) =>
      match E.getResult s2 with
      | Except.error e => (Except.error e, n + 2)
      | Except.ok r => (Except.ok (s2, r), n + 2)

/-- The body of the `with lock:` block of `end_session` (server.py lines
122-125): signal end of input, drain, read the final result. -/
def endLocked {σ : Type} (E : Engine σ) (stream : σ) :
    Except String (σ × EngineResult) × Nat :=
  match E.inputFinished stream with
  | Except.error e => (Except.error e, 1)
  | Except.ok s1 =>
    match drain E s1 with
    | (Except.error e, n) => (Except.error e, n + 1)
    | (Except.ok s2, n) =>
      match E.getResult s2 with
      | Except.error e => (Except.error e, n + 2)
      | Except.ok r => (Except.ok (s2, r), n + 2)

/-- The session registry `sessions : dict` (server.py line 39), id to
stream.  A Python dict has unique keys; theorems that need this carry a
`Nodup` hypothesis on `Registry.keys`. -/
abbrev Registry (σ : Type) := List (String × σ)

def Registry.keys {σ : Type} (r : Registry σ) : List String :=
  List.map Prod.fst r

/-- Embedding of `sessions.get(id)`. -/
def Registry.get? {σ : Type} : Registry σ → String → Option σ
  | [], _ => none
  | p :: r, id => if p.1 = id then some p.2 else Registry.get? r id

/-- Removal part of `sessions.pop(id, None)`: drops the entry for `id`
(a no-op when absent). -/
def Registry.erase {σ : Type} : Registry σ → String → Registry σ
  | [], _ => []
  | p :: r, id => if p.1 = id then r else p :: Registry.erase r id

/-- In-place mutation of the stream object stored under `id` (the Python
dict keeps the same object; engine calls mutate it). -/
def Registry.set {σ : Type} : Registry σ → String → σ → Registry σ
  | [], _, _ => []
  | p :: r, id, v => if p.1 = id then (id, v) :: r else p :: Registry.set r id v

/-- Request body of `POST /v1/fast_asr/push` (server.py lines 46-49). -/
structure PushReq where
  session_id : String
  samples_b64 : String
  sample_rate : Nat := 16000
  deriving DecidableEq

/-- Response of `push` (server.py lines 52-54). -/
structure PushResp where
  text : String
  latency_ms : Int
  deriving DecidableEq

structure EndReq where
  session_id : String
  deriving DecidableEq

structure EndResp where
  text : String
  deriving DecidableEq

/-- How a request terminates abnormally: a structured `HTTPException`
(status, detail) raised by the handler itself, or an unhandled exception
(engine failure, or the misaligned-buffer `ValueError`) escaping the
handler. -/
inductive Failure where
  | http (status : Nat) (detail : String)
  | exn (msg : String)
  deriving DecidableEq

/-- Full observable outcome of one `push_audio` call: the HTTP-level result,
the registry afterwards, the number of engine invocations made, and whether
the call entered the `with lock:` block (touched the decode-serialization
resource). -/
structure PushOut (σ : Type) where
  result : Except Failure PushResp
  sessions : Registry σ
  engineCalls : Nat
  tookLock : Bool

/-- Observable outcome of one `end_session` call. -/
structure EndOut (σ : Type) where
  result : Except Failure EndResp
  sessions : Registry σ
  engineCalls : Nat
  tookLock : Bool

/-- Embedding of `push_audio` (server.py lines 84-112).  `t0` is the
`time.time()` reading taken at line 105, just before entering `with lock:`;
`t1` is the reading at line 111, taken after the lock has been released;
`latency_ms = int((t1 - t0) * 1000)`. -/
def push_audio {σ : Type} (E : Engine σ) (sessions : Registry σ) (req : PushReq)
    (t0 t1 : ℚ) : PushOut σ :=
  match Registry.get? sessions req.session_id with
  | none => ⟨Except.error (Failure.http 404 "session not found"), sessions, 0, false⟩
  | some stream =>
    if req.samples_b64 = "" then ⟨Except.ok ⟨"", 0⟩, sessions, 0, false⟩
    else
      match b64decode req.samples_b64 with
      | Except.error e =>
        ⟨Except.error (Failure.http 400 ("invalid base64: " ++ e)), sessions, 0, false⟩
      | Except.ok data =>
        if data = [] then ⟨Except.ok ⟨"", 0⟩, sessions, 0, false⟩
        else
          match npFrombufferFloat32 data with
          | Except.error e => ⟨Except.error (Failure.exn e), sessions, 0, false⟩
          | Except.ok samples =>
            if samples = [] then ⟨Except.ok ⟨"", 0⟩, sessions, 0, false⟩
            else
              match pushLocked E stream req.sample_rate samples with
              | (Except.error e, n) => ⟨Except.error (Failure.exn e), sessions, n, true⟩
              | (Except.ok (s2, r), n) =>
                ⟨Except.ok ⟨extract_text r, pyInt ((t1 - t0) * 1000)⟩,
                  Registry.set sessions req.session_id s2, n, true⟩

/-- Embedding of `end_session` (server.py lines 115-126): `sessions.pop`
removes the entry first; engine work happens afterwards, under the lock. -/
def end_session {σ : Type} (E : Engine σ) (sessions : Registry σ) (req : EndReq) :
    EndOut σ :=
  match Registry.get? sessions req.session_id with
  | none => ⟨Except.error (Failure.http 404 "session not found"), sessions, 0, false⟩
  | some stream =>
    match endLocked E stream with
    | (Except.error e, n) =>
      ⟨Except.error (Failure.exn e), Registry.erase sessions req.session_id, n, true⟩
    | (Except.ok (_, r), n) =>
      ⟨Except.ok ⟨extract_text r⟩, Registry.erase sessions req.session_id, n, true⟩

/-- Embedding of `start_session` (server.py lines 76-81); `fresh` is the
`uuid.uuid4().hex` value. -/
def start_session {σ : Type} (E : Engine σ) (sessions : Registry σ) (fresh : String) :
    String × Registry σ :=
  (fresh, sessions ++ [(fresh, E.createStream)])

/-!
Concurrency model for the decode-serialization lock.  Each in-flight
`push_audio`/`end_session` request is a thread; with respect to the global
`lock` (server.py line 38, acquired at lines 106 and 121) a request is
before its `with lock:` block (`outside`), blocked attempting to acquire it
(`waiting`), inside the block performing engine calls (`engine`), or past
the block (`after`).  `threading.Lock` semantics: acquisition succeeds only
when no thread holds the lock; release is by the holder.
-/

inductive Phase where
  | outside
  | waiting
  | engine
  | after
  deriving DecidableEq

/-- Interleaved state of `n` concurrent requests: the phase of each and the
current holder of the decode-serialization lock. -/
structure Conf (n : Nat) where
  phase : Fin n → Phase
  holder : Option (Fin n)

/-- One interleaving step: start attempting the lock, acquire it when free,
perform an engine call while holding it (feed / decode step / result
extraction, server.py lines 107-110 and 122-125), or release it. -/
inductive Step {n : Nat} : Conf n → Conf n → Prop where
  | toWait (c : Conf n) (i : Fin n) (h : c.phase i = Phase.outside) :
      Step c ⟨Function.update c.phase i Phase.waiting, c.holder⟩
  | acquire (c : Conf n) (i : Fin n) (h : c.phase i = Phase.waiting)
      (hfree : c.holder = none) :
      Step c ⟨Function.update c.phase i Phase.engine, some i⟩
  | engineCall (c : Conf n) (i : Fin n) (h : c.phase i = Phase.engine)
      (hh : c.holder = some i) :
      Step c c
  | release (c : Conf n) (i : Fin n) (h : c.phase i = Phase.engine)
      (hh : c.holder = some i) :
      Step c ⟨Function.update c.phase i Phase.after, none⟩

/-- Initial configuration: no request has reached the lock, nobody holds it. -/
def Conf.start (n : Nat) : Conf n := ⟨fun _ => Phase.outside, none⟩

/-- Configurations reachable by interleaving the requests. -/
inductive Reachable {n : Nat} : Conf n → Prop where
  | start : Reachable (Conf.start n)
  | step {c c' : Conf n} : Reachable c → Step c c' → Reachable c'

/-!
Concrete engine instances used to evaluate the handlers on closed inputs.
-/

/-- Deterministic engine stub: a stream is the count of pending decode
steps; accepting a waveform makes one decode step ready per sample, each
decode step consumes one, the hypothesis text is always the bare string
`""`. -/
def stubEngine : Engine Nat where
  createStream := 0
  isReady s := s != 0
  decodeStream s := Except.ok (s - 1)
  getResult _ := Except.ok (EngineResult.str "")
  acceptWaveform _ samples s := Except.ok (s + samples.length)
  inputFinished s := Except.ok s
  backlog s := s
  decode_lt := by
    intro s s' h h2
    simp only [bne_iff_ne, ne_eq, decide_eq_true_eq] at h
    cases h2
    dsimp only
    omega

/-- Engine stub whose every operation raises, to exercise the
engine-failure paths. -/
def failEngine : Engine Unit where
  createStream := ()
  isReady _ := false
  decodeStream _ := Except.error "boom"
  getResult _ := Except.error "boom"
  acceptWaveform _ _ _ := Except.error "boom"
  inputFinished _ := Except.error "boom"
  backlog _ := 0
  decode_lt := by intro s s' h h2; simp at h

/-!
Helper lemmas shared by the claim theorems.
-/

theorem Registry.get?_eq_none_of_not_mem {σ : Type} (r : Registry σ) (id : String)
    (h : id ∉ Registry.keys r) : Registry.get? r id = none := by
  induction r with
  | nil => rfl
  | cons p r ih =>
    simp only [Registry.keys, List.map_cons, List.mem_cons, not_or] at h
    simp only [Registry.get?]
    rw [if_neg (fun hp => h.1 hp.symm), ih h.2]

theorem Registry.get?_erase_self {σ : Type} (r : Registry σ) (id : String)
    (h : (Registry.keys r).Nodup) : Registry.get? (Registry.erase r id) id = none := by
  induction r with
  | nil => rfl
  | cons p r ih =>
    simp only [Registry.keys, List.map_cons, List.nodup_cons] at h
    simp only [Registry.erase]
    by_cases hp : p.1 = id
    · rw [if_pos hp]
      exact Registry.get?_eq_none_of_not_mem r id (by rw [← hp]; exact h.1)
    · rw [if_neg hp]
      simp only [Registry.get?]
      rw [if_neg hp]
      exact ih h.2

theorem drain_fst_ok_not_ready {σ : Type} (E : Engine σ) :
    ∀ s s', (drain E s).1 = Except.ok s' → E.isReady s' = false := by
  intro s
  generalize hb : E.backlog s = m
  induction m using Nat.strong_induction_on generalizing s with
  | _ m ih =>
    intro s' h
    rw [drain] at h
    split at h
    · split at h
      · simp at h
      · rename_i hr s1 hd
        rcases hdr : drain E s1 with ⟨r1, n1⟩
        rw [hdr] at h
        simp only at h
        subst hb
        refine ih (E.backlog s1) (E.decode_lt s s1 hr hd) s1 rfl s' ?_
        rw [hdr]
        exact h
    · rename_i hr
      simp only at h
      cases h
      simpa using hr

theorem pyInt_nonneg (q : ℚ) (h : 0 ≤ q) : 0 ≤ pyInt q := by
  unfold pyInt
  exact Int.tdiv_nonneg (Rat.num_nonneg.mpr h) (by positivity)

/-- Lock invariant: in every reachable configuration, a request inside its
engine section is the holder of the decode-serialization lock. -/
theorem holder_of_engine {n : Nat} {c : Conf n} (h : Reachable c) :
    ∀ i, c.phase i = Phase.engine → c.holder = some i := by
  induction h with
  | start =>
    intro i hi
    exact absurd hi (by simp [Conf.start])
  | step hr hs ih =>
    cases hs with
    | toWait j hj =>
      intro i hi
      simp only [Function.update_apply] at hi
      by_cases hij : i = j
      · rw [if_pos hij] at hi; cases hi
      · rw [if_neg hij] at hi
        exact ih i hi
    | acquire j hj hfree =>
      intro i hi
      simp only [Function.update_apply] at hi
      by_cases hij : i = j
      · simp [hij]
      · rw [if_neg hij] at hi
        have hold := ih i hi
        rw [hfree] at hold
        cases hold
    | engineCall j hj hh =>
      exact ih
    | release j hj hh =>
      intro i hi
      simp only [Function.update_apply] at hi
      by_cases hij : i = j
      · rw [if_pos hij] at hi; cases hi
      · rw [if_neg hij] at hi
        have h1 := ih i hi
        rw [hh] at h1
        injection h1 with h2
        exact absurd h2.symm hij

/-!
Claim theorems.
-/

/-- C8: the result-extraction adapter normalizes both engine result shapes
to one text value: a bare string is returned unchanged; otherwise the value
of the text attribute is returned, defaulting to the empty string when the
attribute is missing (or None) or its value is empty.  Extraction is a
total function, so it never fails. -/
theorem extract_text_normalizes (s t : String) (ht : t ≠ "") :
    extract_text (EngineResult.str s) = s ∧
    extract_text (EngineResult.obj none) = "" ∧
    extract_text (EngineResult.obj (some "")) = "" ∧
    extract_text (EngineResult.obj (some t)) = t := by
  refine ⟨rfl, rfl, rfl, ?_⟩
  simp [extract_text, ht]

theorem extract_text_normalizes_witness :
    extract_text (EngineResult.str "hi") = "hi" ∧
    extract_text (EngineResult.obj none) = "" ∧
    extract_text (EngineResult.obj (some "")) = "" ∧
    extract_text (EngineResult.obj (some "hey")) = "hey" :=
  extract_text_normalizes "hi" "hey" (by decide)

/-- C9: in push, the session lookup happens before any payload validation:
a call with an unknown session identifier fails with NotFound (404)
whatever the payload — also when the payload is empty or malformed — and
performs no state change, no engine call, and never touches the lock. -/
theorem not_found_precedes_validation {σ : Type} (E : Engine σ)
    (sessions : Registry σ) (req : PushReq) (t0 t1 : ℚ)
    (h : Registry.get? sessions req.session_id = none) :
    push_audio E sessions req t0 t1 =
      ⟨Except.error (Failure.http 404 "session not found"), sessions, 0, false⟩ := by
  unfold push_audio
  rw [h]

theorem not_found_precedes_validation_witness :
    push_audio stubEngine [("other", 0)] ⟨"s", "YQ", 16000⟩ 0 0 =
      ⟨Except.error (Failure.http 404 "session not found"), [("other", 0)], 0, false⟩ ∧
    push_audio stubEngine [("other", 0)] ⟨"s", "", 16000⟩ 0 0 =
      ⟨Except.error (Failure.http 404 "session not found"), [("other", 0)], 0, false⟩ :=
  ⟨not_found_precedes_validation stubEngine [("other", 0)] ⟨"s", "YQ", 16000⟩ 0 0 rfl,
   not_found_precedes_validation stubEngine [("other", 0)] ⟨"s", "", 16000⟩ 0 0 rfl⟩

/-- C4: for a registered session, a push whose chunk is empty — an empty
payload string, a payload decoding to zero bytes, or one yielding zero
float32 samples — returns text "" and latency 0 immediately, making no
engine call and never touching the decode-serialization lock. -/
theorem empty_chunk_fast_path {σ : Type} (E : Engine σ) (sessions : Registry σ)
    (req : PushReq) (t0 t1 : ℚ) (stream : σ)
    (hs : Registry.get? sessions req.session_id = some stream)
    (he : req.samples_b64 = "" ∨
      b64decode req.samples_b64 = Except.ok [] ∨
      ∃ data, b64decode req.samples_b64 = Except.ok data ∧
        npFrombufferFloat32 data = Except.ok []) :
    push_audio E sessions req t0 t1 = ⟨Except.ok ⟨"", 0⟩, sessions, 0, false⟩ := by
  rcases he with h1 | h2 | ⟨data, hb, hf⟩
  · simp [push_audio, hs, h1]
  · by_cases h1 : req.samples_b64 = ""
    · simp [push_audio, hs, h1]
    · simp [push_audio, hs, h1, h2]
  · by_cases h1 : req.samples_b64 = ""
    · simp [push_audio, hs, h1]
    · by_cases hd : data = []
      · subst hd
        simp [push_audio, hs, h1, hb]
      · simp [push_audio, hs, h1, hb, hd, hf]

/-- C1: every engine call made by push (feed, decode steps, result
extraction) and by end (finish, decode steps, result extraction) happens
inside the single process-wide lock, so in every reachable interleaving at
most one in-flight request is inside its engine-call section: two requests
in their engine sections are the same request, hence engine-call intervals
of distinct concurrent push/end calls never overlap. -/
theorem push_end_engine_serialized {n : Nat} (c : Conf n) (h : Reachable c)
    (i j : Fin n) (hi : c.phase i = Phase.engine) (hj : c.phase j = Phase.engine) :
    i = j := by
  have h1 := holder_of_engine h i hi
  have h2 := holder_of_engine h j hj
  rw [h1] at h2
  injection h2

theorem push_end_engine_serialized_witness : (0 : Fin 1) = (0 : Fin 1) :=
  push_end_engine_serialized
    ⟨Function.update (Function.update (Conf.start 1).phase 0 Phase.waiting) 0 Phase.engine,
      some 0⟩
    (Reachable.step
      (Reachable.step Reachable.start (Step.toWait (Conf.start 1) 0 rfl))
      (Step.acquire
        ⟨Function.update (Conf.start 1).phase 0 Phase.waiting, (Conf.start 1).holder⟩
        0 rfl rfl))
    0 0 rfl rfl

/-- C2: once a session identifier is removed by end — and end always
removes it, whatever the engine then does — every later push or end with
that identifier fails with NotFound (404), leaving the registry exactly as
it was; in particular a second end on the same identifier fails with
NotFound instead of crashing. -/
theorem end_removes_then_not_found {σ : Type} (E : Engine σ) (sessions : Registry σ)
    (id : String) (req : PushReq) (t0 t1 : ℚ)
    (hnd : (Registry.keys sessions).Nodup)
    (hreg : (Registry.get? sessions id).isSome = true)
    (hid : req.session_id = id) :
    Registry.get? ((end_session E sessions ⟨id⟩).sessions) id = none ∧
    (∀ r2 : Registry σ, Registry.get? r2 id = none →
      end_session E r2 ⟨id⟩ =
        ⟨Except.error (Failure.http 404 "session not found"), r2, 0, false⟩ ∧
      push_audio E r2 req t0 t1 =
        ⟨Except.error (Failure.http 404 "session not found"), r2, 0, false⟩) := by
  constructor
  · rcases hg : Registry.get? sessions id with _ | stream
    · rw [hg] at hreg; cases hreg
    · have herase := Registry.get?_erase_self sessions id hnd
      rcases hend : endLocked E stream with ⟨r, n⟩
      rcases r with e | ⟨s2, res⟩
      · simp [end_session, hg, hend, herase]
      · simp [end_session, hg, hend, herase]
  · intro r2 h2
    constructor
    · simp [end_session, h2]
    · simp [push_audio, hid, h2]

theorem end_removes_then_not_found_witness :
    Registry.get? ((end_session stubEngine [("s", 0)] ⟨"s"⟩).sessions) "s" = none ∧
    push_audio stubEngine ([] : Registry Nat) ⟨"s", "YQ", 16000⟩ 0 0 =
      ⟨Except.error (Failure.http 404 "session not found"), [], 0, false⟩ :=
  ⟨(end_removes_then_not_found stubEngine [("s", 0)] "s" ⟨"s", "YQ", 16000⟩ 0 0
      (by simp [Registry.keys]) rfl rfl).1,
   ((end_removes_then_not_found stubEngine [("s", 0)] "s" ⟨"s", "YQ", 16000⟩ 0 0
      (by simp [Registry.keys]) rfl rfl).2 [] rfl).2⟩

/-- C5: a successful locked section of push (feed then drain then extract)
or of end (finish then drain then extract) leaves the engine reporting
nothing further ready to decode at the moment the result text is
extracted: the undecoded-but-ready backlog is zero at the end of every
successful push/end. -/
theorem push_end_drain_to_exhaustion {σ : Type} (E : Engine σ)
    (stream stream2 s2 s3 : σ) (rate : Nat) (samples : List Nat)
    (r r2 : EngineResult) (n n2 : Nat)
    (hp : pushLocked E stream rate samples = (Except.ok (s2, r), n))
    (he : endLocked E stream2 = (Except.ok (s3, r2), n2)) :
    E.isReady s2 = false ∧ E.isReady s3 = false := by
  constructor
  · unfold pushLocked at hp
    split at hp
    · simp at hp
    · rename_i s1 hacc
      split at hp
      · simp at hp
      · rename_i sd m hdr
        split at hp
        · simp at hp
        · rename_i rr hres
          simp only [Prod.mk.injEq, Except.ok.injEq] at hp
          obtain ⟨⟨hsd, hrr⟩, hn⟩ := hp
          subst hsd
          exact drain_fst_ok_not_ready E s1 sd (by rw [hdr])
  · unfold endLocked at he
    split at he
    · simp at he
    · rename_i s1 hfin
      split at he
      · simp at he
      · rename_i sd m hdr
        split at he
        · simp at he
        · rename_i rr hres
          simp only [Prod.mk.injEq, Except.ok.injEq] at he
          obtain ⟨⟨hsd, hrr⟩, hn⟩ := he
          subst hsd
          exact drain_fst_ok_not_ready E s1 sd (by rw [hdr])

theorem push_end_drain_to_exhaustion_witness :
    stubEngine.isReady 0 = false ∧ stubEngine.isReady 0 = false :=
  push_end_drain_to_exhaustion stubEngine 0 0 0 0 16000 [0]
    (EngineResult.str "") (EngineResult.str "") 3 2
    (by simp [pushLocked, drain, stubEngine])
    (by simp [endLocked, drain, stubEngine])

theorem empty_chunk_fast_path_witness :
    push_audio stubEngine [("s", 7)] ⟨"s", "", 16000⟩ 0 0 =
      ⟨Except.ok ⟨"", 0⟩, [("s", 7)], 0, false⟩ ∧
    push_audio stubEngine [("s", 7)] ⟨"s", "====", 16000⟩ 0 0 =
      ⟨Except.ok ⟨"", 0⟩, [("s", 7)], 0, false⟩ :=
  ⟨empty_chunk_fast_path stubEngine [("s", 7)] ⟨"s", "", 16000⟩ 0 0 7 rfl (Or.inl rfl),
   empty_chunk_fast_path stubEngine [("s", 7)] ⟨"s", "====", 16000⟩ 0 0 7 rfl
     (Or.inr (Or.inl (by decide)))⟩

/-- C6: for every push that reaches the engine (enters the `with lock:`
block), the returned latency is `int((t1 - t0) * 1000)` where `t0` is read
just before attempting to acquire the decode-serialization lock and `t1`
just after it has been released — so the window includes time spent waiting
behind other sessions — and with a monotone clock it is non-negative. -/
theorem latency_window_nonneg {σ : Type} (E : Engine σ) (sessions : Registry σ)
    (req : PushReq) (t0 t1 : ℚ) (resp : PushResp)
    (hmono : t0 ≤ t1)
    (hlock : (push_audio E sessions req t0 t1).tookLock = true)
    (hok : (push_audio E sessions req t0 t1).result = Except.ok resp) :
    resp.latency_ms = pyInt ((t1 - t0) * 1000) ∧ 0 ≤ resp.latency_ms := by
  rcases h1 : Registry.get? sessions req.session_id with _ | stream
  · simp [push_audio, h1] at hlock
  · by_cases h2 : req.samples_b64 = ""
    · simp [push_audio, h1, h2] at hlock
    · rcases h3 : b64decode req.samples_b64 with e | data
      · simp [push_audio, h1, h2, h3] at hlock
      · by_cases h4 : data = []
        · simp [push_audio, h1, h2, h3, h4] at hlock
        · rcases h5 : npFrombufferFloat32 data with e | samples
          · simp [push_audio, h1, h2, h3, h4, h5] at hlock
          · by_cases h6 : samples = []
            · simp [push_audio, h1, h2, h3, h4, h5, h6] at hlock
            · rcases h7 : pushLocked E stream req.sample_rate samples with ⟨rr, n⟩
              rcases rr with e | ⟨s2, r⟩
              · simp [push_audio, h1, h2, h3, h4, h5, h6, h7] at hok
              · simp [push_audio, h1, h2, h3, h4, h5, h6, h7] at hok
                rw [← hok]
                refine ⟨rfl, ?_⟩
                exact pyInt_nonneg _ (mul_nonneg (sub_nonneg.mpr hmono) (by norm_num))

theorem latency_window_nonneg_witness :
    (⟨"", 0⟩ : PushResp).latency_ms = pyInt ((0 - 0) * 1000) ∧
    0 ≤ (⟨"", 0⟩ : PushResp).latency_ms := by
  have hb : b64decode "AAAAAA==" = Except.ok [0, 0, 0, 0] := by decide
  have hf : npFrombufferFloat32 [0, 0, 0, 0] = Except.ok [0] := by decide
  have hl : pushLocked stubEngine 0 16000 [0] = (Except.ok (0, EngineResult.str ""), 3) := by
    simp [pushLocked, drain, stubEngine]
  exact latency_window_nonneg stubEngine [("s", 0)] ⟨"s", "AAAAAA==", 16000⟩ 0 0 ⟨"", 0⟩
    le_rfl
    (by simp [push_audio, Registry.get?, hb, hf, hl])
    (by simp [push_audio, Registry.get?, hb, hf, hl, pyInt, Int.zero_tdiv, extract_text])

/-- C7: if the engine raises during push's locked feed/decode/extract
steps, the exception propagates out of push as an opaque (non-HTTP)
failure and the registry is returned exactly as it was: the session's
entry is left in place and no registry mutation or rollback happens. -/
theorem engine_failure_propagates_push {σ : Type} (E : Engine σ)
    (sessions : Registry σ) (req : PushReq) (t0 t1 : ℚ) (stream : σ)
    (data samples : List Nat) (e : String) (n : Nat)
    (hs : Registry.get? sessions req.session_id = some stream)
    (hne : req.samples_b64 ≠ "")
    (hb : b64decode req.samples_b64 = Except.ok data)
    (hd : data ≠ [])
    (hf : npFrombufferFloat32 data = Except.ok samples)
    (hsm : samples ≠ [])
    (hl : pushLocked E stream req.sample_rate samples = (Except.error e, n)) :
    push_audio E sessions req t0 t1 =
      ⟨Except.error (Failure.exn e), sessions, n, true⟩ := by
  simp [push_audio, hs, hne, hb, hd, hf, hsm, hl]

theorem engine_failure_propagates_push_witness :
    push_audio failEngine [("s", ())] ⟨"s", "AAAAAA==", 16000⟩ 0 0 =
      ⟨Except.error (Failure.exn "boom"), [("s", ())], 1, true⟩ :=
  engine_failure_propagates_push failEngine [("s", ())] ⟨"s", "AAAAAA==", 16000⟩ 0 0 ()
    [0, 0, 0, 0] [0] "boom" 1
    rfl (by decide) (by decide) (by decide) (by decide) (by decide) rfl

/-- C10: end removes the session from the registry before any engine work,
so when the engine raises during end's finish/drain/extract the exception
propagates as an opaque failure while the session is already gone: the
identifier no longer resolves, and every later push or end on it fails
with NotFound without state change. -/
theorem end_removes_before_engine {σ : Type} (E : Engine σ)
    (sessions : Registry σ) (id : String) (req : PushReq) (t0 t1 : ℚ)
    (stream : σ) (e : String) (n : Nat)
    (hnd : (Registry.keys sessions).Nodup)
    (hs : Registry.get? sessions id = some stream)
    (hl : endLocked E stream = (Except.error e, n))
    (hid : req.session_id = id) :
    end_session E sessions ⟨id⟩ =
      ⟨Except.error (Failure.exn e), Registry.erase sessions id, n, true⟩ ∧
    Registry.get? ((end_session E sessions ⟨id⟩).sessions) id = none ∧
    push_audio E ((end_session E sessions ⟨id⟩).sessions) req t0 t1 =
      ⟨Except.error (Failure.http 404 "session not found"),
        (end_session E sessions ⟨id⟩).sessions, 0, false⟩ ∧
    end_session E ((end_session E sessions ⟨id⟩).sessions) ⟨id⟩ =
      ⟨Except.error (Failure.http 404 "session not found"),
        (end_session E sessions ⟨id⟩).sessions, 0, false⟩ := by
  have herase := Registry.get?_erase_self sessions id hnd
  have hend : end_session E sessions ⟨id⟩ =
      ⟨Except.error (Failure.exn e), Registry.erase sessions id, n, true⟩ := by
    simp [end_session, hs, hl]
  refine ⟨hend, ?_, ?_, ?_⟩
  · rw [hend]
    exact herase
  · rw [hend]
    simp [push_audio, hid, herase]
  · rw [hend]
    simp [end_session, herase]

theorem end_removes_before_engine_witness :
    end_session failEngine [("s", ())] ⟨"s"⟩ =
      ⟨Except.error (Failure.exn "boom"), Registry.erase [("s", ())] "s", 1, true⟩ ∧
    Registry.get? ((end_session failEngine [("s", ())] ⟨"s"⟩).sessions) "s" = none ∧
    push_audio failEngine ((end_session failEngine [("s", ())] ⟨"s"⟩).sessions)
        ⟨"s", "", 16000⟩ 0 0 =
      ⟨Except.error (Failure.http 404 "session not found"),
        (end_session failEngine [("s", ())] ⟨"s"⟩).sessions, 0, false⟩ ∧
    end_session failEngine ((end_session failEngine [("s", ())] ⟨"s"⟩).sessions) ⟨"s"⟩ =
      ⟨Except.error (Failure.http 404 "session not found"),
        (end_session failEngine [("s", ())] ⟨"s"⟩).sessions, 0, false⟩ :=
  end_removes_before_engine failEngine [("s", ())] "s" ⟨"s", "", 16000⟩ 0 0 () "boom" 1
    (by simp [Registry.keys]) rfl rfl rfl

/-- C3 as stated is false on the code: for a registered session, the
payload "YWJj" is valid base64 but decodes to 3 bytes, and the call does
not fail with a structured InvalidInput (HTTP 400) — the frombuffer
ValueError escapes `push_audio` unhandled (`Failure.exn`, an unstructured
500-class crash), because `np.frombuffer` at server.py line 101 is outside
the `try` block of lines 93-96. -/
theorem misaligned_payload_not_invalid_input :
    push_audio stubEngine [("s", 0)] ⟨"s", "YWJj", 16000⟩ 0 0 =
      ⟨Except.error (Failure.exn "buffer size must be a multiple of element size"),
        [("s", 0)], 0, false⟩ :=
  rfl

/-- C3 (amended): for a registered session, a push whose payload is not
decodable base64 fails with the structured InvalidInput error (HTTP 400,
"invalid base64: ..."), the registry is unchanged and the session stays
usable — a following push with a valid payload on the same session
succeeds; but a payload that is valid base64 whose decoded byte length is
not a multiple of 4 instead raises an unhandled exception (an unstructured
error, not InvalidInput), also leaving the registry unchanged. -/
theorem invalid_base64_rejected_session_not_poisoned {σ : Type} (E : Engine σ)
    (sessions : Registry σ) (id p p2 p3 : String) (rate : Nat) (t0 t1 : ℚ)
    (stream s2 : σ) (e : String) (data data3 samples : List Nat)
    (r : EngineResult) (n : Nat)
    (hs : Registry.get? sessions id = some stream)
    (hp : p ≠ "") (hb : b64decode p = Except.error e)
    (hp2 : p2 ≠ "") (hb2 : b64decode p2 = Except.ok data) (hd2 : data ≠ [])
    (hf2 : npFrombufferFloat32 data = Except.ok samples) (hsm2 : samples ≠ [])
    (hl2 : pushLocked E stream rate samples = (Except.ok (s2, r), n))
    (hp3 : p3 ≠ "") (hb3 : b64decode p3 = Except.ok data3) (hd3 : data3 ≠ [])
    (hlen3 : ¬ data3.length % 4 = 0) :
    push_audio E sessions ⟨id, p, rate⟩ t0 t1 =
      ⟨Except.error (Failure.http 400 ("invalid base64: " ++ e)), sessions, 0, false⟩ ∧
    push_audio E sessions ⟨id, p2, rate⟩ t0 t1 =
      ⟨Except.ok ⟨extract_text r, pyInt ((t1 - t0) * 1000)⟩,
        Registry.set sessions id s2, n, true⟩ ∧
    push_audio E sessions ⟨id, p3, rate⟩ t0 t1 =
      ⟨Except.error (Failure.exn "buffer size must be a multiple of element size"),
        sessions, 0, false⟩ := by
  have hf3 : npFrombufferFloat32 data3 =
      Except.error "buffer size must be a multiple of element size" := by
    unfold npFrombufferFloat32
    rw [if_neg hlen3]
  refine ⟨?_, ?_, ?_⟩
  · simp [push_audio, hs, hp, hb]
  · simp [push_audio, hs, hp2, hb2, hd2, hf2, hsm2, hl2]
  · simp [push_audio, hs, hp3, hb3, hd3, hf3]

theorem invalid_base64_rejected_session_not_poisoned_witness :
    push_audio stubEngine [("s", 0)] ⟨"s", "YQ", 16000⟩ 0 0 =
      ⟨Except.error (Failure.http 400 ("invalid base64: " ++ "incorrect padding")),
        [("s", 0)], 0, false⟩ ∧
    push_audio stubEngine [("s", 0)] ⟨"s", "AAAAAA==", 16000⟩ 0 0 =
      ⟨Except.ok ⟨extract_text (EngineResult.str ""), pyInt ((0 - 0) * 1000)⟩,
        Registry.set [("s", 0)] "s" 0, 3, true⟩ ∧
    push_audio stubEngine [("s", 0)] ⟨"s", "YWJj", 16000⟩ 0 0 =
      ⟨Except.error (Failure.exn "buffer size must be a multiple of element size"),
        [("s", 0)], 0, false⟩ :=
  invalid_base64_rejected_session_not_poisoned stubEngine [("s", 0)] "s" "YQ" "AAAAAA=="
    "YWJj" 16000 0 0 0 0 "incorrect padding" [0, 0, 0, 0] [97, 98, 99] [0]
    (EngineResult.str "") 3
    rfl (by decide) (by decide) (by decide) (by decide) (by decide) (by decide) (by decide)
    (by simp [pushLocked, drain, stubEngine])
    (by decide) (by decide) (by decide) (by decide)

end FastASR
